import Mathlib

/-!
Verification of the motion-control layer of the pyobs-ascom repository.

The embedding below translates `src/pyobs_ascom/ascomtelescope.py`,
`src/pyobs_ascom/ascomfocuser.py` and `src/pyobs_ascom/com.py` into Lean.
Angles are modelled over `ℚ`; the composite `np.cos(np.radians d)` used by the
source is abstracted as an explicit parameter `cosdeg : ℚ → ℚ`, so that all
definitions stay computable and theorems quantify over the trigonometric
function instead of fixing a float approximation.
-/

namespace PyobsAscom

/-- Motion status values of the pyobs `IMotion.Status` enumeration used by this
repository. -/
inductive MotionStatus where
  | IDLE
  | INITIALIZING
  | PARKING
  | PARKED
  | SLEWING
  | TRACKING
  | POSITIONED
  deriving DecidableEq, Repr

/-- State of an `AscomTelescope` module together with the readback of the ASCOM
device it drives: the stored `_offset_ra` / `_offset_dec` (degrees), the
device's `RightAscension` (hours) and `Declination` (degrees), the device
`Tracking` flag and the module's motion status. -/
structure TelescopeState where
  offset_ra : ℚ
  offset_dec : ℚ
  rawRaHours : ℚ
  rawDec : ℚ
  tracking : Bool
  motion : MotionStatus
  deriving DecidableEq, Repr

/-- `AscomTelescope.get_radec`: returns
`(device.RightAscension * 15 - offset_ra / cos(radians(device.Declination)),
device.Declination - offset_dec)`.  Here `cosdeg d` stands for
`np.cos(np.radians d)`. -/
def get_radec (cosdeg : ℚ → ℚ) (s : TelescopeState) : ℚ × ℚ :=
  (s.rawRaHours * 15 - s.offset_ra / cosdeg s.rawDec, s.rawDec - s.offset_dec)

/-- `AscomTelescope.get_radec_offsets`: returns the stored offset pair. -/
def get_radec_offsets (s : TelescopeState) : ℚ × ℚ :=
  (s.offset_ra, s.offset_dec)

/-- `AscomTelescope._move_altaz`: resets both offsets to 0, sets status
`SLEWING`, commands `device.SlewToAltAzAsync(az, alt)` with `Tracking = False`,
waits until the device stops slewing and then sets `final_state` with
`Tracking = False` again.  The device readback after reaching the horizontal
target is environment-determined, so it is passed in as
`postRaHours`/`postDec`.  The second component is the list of motion statuses
set during the call, in order. -/
def move_altaz (s : TelescopeState) (alt az postRaHours postDec : ℚ)
    (final : MotionStatus) : TelescopeState × List MotionStatus :=
  ({ offset_ra := 0, offset_dec := 0, rawRaHours := postRaHours,
     rawDec := postDec, tracking := false, motion := final },
   [MotionStatus.SLEWING, final])

/-- `AscomTelescope._move_radec`: resets both offsets to 0, sets status
`SLEWING`, commands `device.SlewToCoordinatesAsync(ra / 15, dec)` with
`Tracking = True`, waits until the device stops slewing and then sets status
`TRACKING`.  The device is assumed to reach the commanded coordinates. -/
def move_radec (s : TelescopeState) (ra dec : ℚ) :
    TelescopeState × List MotionStatus :=
  ({ offset_ra := 0, offset_dec := 0, rawRaHours := ra / 15, rawDec := dec,
     tracking := true, motion := MotionStatus.TRACKING },
   [MotionStatus.SLEWING, MotionStatus.TRACKING])

/-- `AscomTelescope.init`: acquires the motion lock and calls
`self._move_altaz(15, 180, self._abort_move)` with the default
`final_state = IMotion.Status.POSITIONED`. -/
def telescope_init (s : TelescopeState) (postRaHours postDec : ℚ) :
    TelescopeState × List MotionStatus :=
  move_altaz s 15 180 postRaHours postDec MotionStatus.POSITIONED

/-- `AscomTelescope.park`: same move as `init` but with
`final_state = IMotion.Status.PARKED`. -/
def telescope_park (s : TelescopeState) (postRaHours postDec : ℚ) :
    TelescopeState × List MotionStatus :=
  move_altaz s 15 180 postRaHours postDec MotionStatus.PARKED

/-- `AscomTelescope.set_radec_offsets` body (inside the lock): sets status
`SLEWING`, reads `ra, dec = self.get_radec()` (still under the old offsets),
stores the new offsets, commands
`device.SlewToCoordinatesAsync((ra + dra / cos(radians dec)) / 15, dec + ddec)`
with `Tracking = True`, waits for the slew and sets status `TRACKING`.  The
device is assumed to reach the commanded coordinates. -/
def set_radec_offsets (cosdeg : ℚ → ℚ) (s : TelescopeState) (dra ddec : ℚ) :
    TelescopeState × List MotionStatus :=
  let radec := get_radec cosdeg s
  let ra := radec.1 + dra / cosdeg radec.2
  let dec := radec.2 + ddec
  ({ offset_ra := dra, offset_dec := ddec, rawRaHours := ra / 15, rawDec := dec,
     tracking := true, motion := MotionStatus.TRACKING },
   [MotionStatus.SLEWING, MotionStatus.TRACKING])

/-- A concrete quiescent starting state: zero offsets, device at RA 0 h,
Dec 0°, not tracking, status `IDLE`. -/
def idleState : TelescopeState :=
  { offset_ra := 0, offset_dec := 0, rawRaHours := 0, rawDec := 0,
    tracking := false, motion := MotionStatus.IDLE }

/-- A concrete stand-in for `cosdeg` that is consistent with the true cosine at
declination 0 (`cos 0° = 1`). -/
def cosdegOne : ℚ → ℚ := fun _ => 1

/-- Outcome of a polled motion body: either an early return on the abort
signal, or normal completion declaring a final motion status. -/
inductive MoveOutcome where
  | aborted
  | completed (final : MotionStatus)
  deriving DecidableEq, Repr

/-- The wait loop of `AscomTelescope._move_altaz` / `_move_radec`:
`while device.Slewing: abort_event.wait(1)`.  The device `Slewing` flag is a
trace indexed by poll number; `abortSet` is the state of the abort event at
each poll.  The loop body only sleeps on the event — the event's state has no
influence on control flow — so the loop exits (`some ()`) exactly when the
device stops slewing; `none` means the fuel ran out with the device still
slewing. -/
def telescope_wait_loop (slewing abortSet : Nat → Bool) :
    Nat → Nat → Option Unit
  | 0, _ => none
  | fuel + 1, k =>
    if slewing k then telescope_wait_loop slewing abortSet fuel (k + 1)
    else some ()

/-- The tail of `AscomTelescope._move_altaz` / `_move_radec` after issuing the
slew command: wait for the device, then declare `final` (the `final_state`
argument, or `TRACKING` for `_move_radec`).  There is no abort exit in the
source, so an `aborted` outcome is never produced. -/
def telescope_move (slewing abortSet : Nat → Bool) (fuel : Nat)
    (final : MotionStatus) : Option MoveOutcome :=
  (telescope_wait_loop slewing abortSet fuel 0).map
    (fun _ => MoveOutcome.completed final)

/-- The wait loop of `AscomFocuser._set_focus`:
`while abs(device.Position - foc) > 10: if abort.is_set(): return; sleep(0.1)`.
`position` is the device `Position` readback at each poll.  Normal completion
declares `POSITIONED`. -/
def focuser_wait_loop (position : Nat → Int) (foc : Int)
    (abortSet : Nat → Bool) : Nat → Nat → Option MoveOutcome
  | 0, _ => none
  | fuel + 1, k =>
    if 10 < (position k - foc).natAbs then
      if abortSet k then some MoveOutcome.aborted
      else focuser_wait_loop position foc abortSet fuel (k + 1)
    else some (MoveOutcome.completed MotionStatus.POSITIONED)

/-- Motion status of the focuser module after `_set_focus` returns:
`_change_motion_status(SLEWING)` runs before the loop, and the early return on
abort skips the final `_change_motion_status(POSITIONED)`, so an aborted call
leaves the status at `SLEWING`. -/
def focuser_status_after : MoveOutcome → MotionStatus
  | MoveOutcome.aborted => MotionStatus.SLEWING
  | MoveOutcome.completed f => f

/-- Result of trying to enter a guarded motion call. -/
inductive AcquireOutcome where
  | acquired
  | busy
  deriving DecidableEq, Repr

/-- Modelled from the spec: the implementation of `LockWithAbort` lives in
`pyobs.utils.threads`, outside this repository's source tree (only its call
sites are in `src/`).  Per §4.5(a), a public motion call "attempts to acquire
the device's mutual-exclusion guard without blocking indefinitely — blocking
acquisition is allowed only while no other operation holds it, otherwise
immediately fails with `Busy`". -/
def lockWithAbort_acquire (lockHeld : Bool) : AcquireOutcome :=
  if lockHeld then AcquireOutcome.busy else AcquireOutcome.acquired

/-- Result of a public motion call entered through `LockWithAbort`. -/
inductive CallResult (α : Type) where
  | busy
  | ok (value : α)
  deriving DecidableEq, Repr

/-- `AscomTelescope.set_radec_offsets` as called from outside: the body runs
under `LockWithAbort(self._lock_moving, self._abort_move)`, so with the guard
held by another motion operation the call ends `busy` without touching the
device. -/
def set_radec_offsets_call (cosdeg : ℚ → ℚ) (lockHeld : Bool)
    (s : TelescopeState) (dra ddec : ℚ) :
    CallResult (TelescopeState × List MotionStatus) :=
  match lockWithAbort_acquire lockHeld with
  | AcquireOutcome.busy => CallResult.busy
  | AcquireOutcome.acquired => CallResult.ok (set_radec_offsets cosdeg s dra ddec)

/-- Telescope module state together with the concurrency primitives created in
`BaseTelescope`: the device `Slewing` flag, the `_abort_move` event and the
`_lock_moving` lock. -/
structure TelescopeSystem where
  tele : TelescopeState
  slewing : Bool
  abortMoveSet : Bool
  lockMovingHeld : Bool
  deriving DecidableEq, Repr

/-- `AscomTelescope.stop_motion`: the body is `device.AbortSlew()` followed by
`device.Tracking = False` inside `com_device` — it does not enter
`LockWithAbort` and does not call `self._abort_move.set()`.  `AbortSlew` makes
the device stop slewing. -/
def stop_motion (sys : TelescopeSystem) : TelescopeSystem :=
  { tele :=
      { offset_ra := sys.tele.offset_ra, offset_dec := sys.tele.offset_dec,
        rawRaHours := sys.tele.rawRaHours, rawDec := sys.tele.rawDec,
        tracking := false, motion := sys.tele.motion },
    slewing := false, abortMoveSet := sys.abortMoveSet,
    lockMovingHeld := sys.lockMovingHeld }

/-- Focuser module state with its concurrency primitives: the device
`IsMoving` flag (motor moving), the `_abort_motion` event and the
`_lock_motion` lock. -/
structure FocuserSystem where
  isMoving : Bool
  abortMotionSet : Bool
  lockMotionHeld : Bool
  deriving DecidableEq, Repr

/-- `AscomFocuser.stop_motion`: the body is `device.Halt()` inside
`com_device` — no lock, no `self._abort_motion.set()`.  `Halt` stops the
motor. -/
def focuser_stop_motion (f : FocuserSystem) : FocuserSystem :=
  { isMoving := false, abortMotionSet := f.abortMotionSet,
    lockMotionHeld := f.lockMotionHeld }

/-- COM session events issued by the module code (`pythoncom.CoInitialize` and
`pythoncom.CoUninitialize`). -/
inductive ComEvent where
  | coInit
  | coUninit
  deriving DecidableEq, Repr

/-- `com_device` from `src/pyobs_ascom/com.py`: `CoInitialize`, then the body
runs under `try`, and the `finally` block runs `CoUninitialize` on every exit
path — body success and body exception alike.  A body is its event trace plus
its outcome. -/
def com_device {ε α : Type} (body : List ComEvent × Except ε α) :
    List ComEvent × Except ε α :=
  (ComEvent.coInit :: (body.1 ++ [ComEvent.coUninit]), body.2)

/-- Number of occurrences of a COM event in a trace. -/
def countEv (e : ComEvent) : List ComEvent → Nat
  | [] => 0
  | x :: t => (if x = e then 1 else 0) + countEv e t

/-- A COM event trace is balanced when it holds as many `CoInitialize` calls
as `CoUninitialize` calls. -/
def comBalanced (t : List ComEvent) : Bool :=
  countEv ComEvent.coInit t == countEv ComEvent.coUninit t

/-- Outcome of `AscomTelescope.open`. -/
inductive OpenOutcome where
  | opened
  | connectFailed
  deriving DecidableEq, Repr

/-- `AscomTelescope.open` (COM-relevant part): `pythoncom.CoInitialize()`, then
dispatch and connect; when the device reports not connected after setting
`Connected = True` the method raises `ValueError` — and the trailing
`pythoncom.CoUninitialize()` is only reached on the success paths, there being
no `try`/`finally` here. -/
def telescope_open (alreadyConnected connectWorks : Bool) :
    List ComEvent × OpenOutcome :=
  if alreadyConnected then
    ([ComEvent.coInit, ComEvent.coUninit], OpenOutcome.opened)
  else if connectWorks then
    ([ComEvent.coInit, ComEvent.coUninit], OpenOutcome.opened)
  else
    ([ComEvent.coInit], OpenOutcome.connectFailed)

/-- Azimuth correction in `AscomTelescope.get_altaz`:
`az = device.Azimuth + 180; if az > 360: az -= 360` (the driver reports
azimuth east of south but slews east of north). -/
def get_altaz_az (rawAz : ℚ) : ℚ :=
  let az := rawAz + 180
  if az > 360 then az - 360 else az

/-- `AscomTelescope.get_motion_status`: a cascade over the live driver flags —
`Tracking` first, then `Slewing`, then `AtPark`, else `IDLE`. -/
def get_motion_status (tracking slewing atPark : Bool) : MotionStatus :=
  if tracking then MotionStatus.TRACKING
  else if slewing then MotionStatus.SLEWING
  else if atPark then MotionStatus.PARKED
  else MotionStatus.IDLE

/-- A telescope system with a slew in flight: lock held, device slewing, abort
event not set. -/
def slewingSystem : TelescopeSystem :=
  { tele :=
      { offset_ra := 0, offset_dec := 0, rawRaHours := 0, rawDec := 0,
        tracking := true, motion := MotionStatus.SLEWING },
    slewing := true, abortMoveSet := false, lockMovingHeld := true }

/-- A focuser system with a focus move in flight: lock held, motor moving,
abort event not set. -/
def movingFocuser : FocuserSystem :=
  { isMoving := true, abortMotionSet := false, lockMotionHeld := true }

/-- The telescope wait loop never consults the abort event's state: its result
is the same for any two abort traces. -/
theorem telescope_wait_loop_abort_free (slewing a b : Nat → Bool) :
    ∀ fuel k, telescope_wait_loop slewing a fuel k
      = telescope_wait_loop slewing b fuel k
  | 0, _ => rfl
  | fuel + 1, k => by
    simp only [telescope_wait_loop]
    by_cases h : slewing k = true
    · rw [if_pos h, if_pos h]
      exact telescope_wait_loop_abort_free slewing a b fuel (k + 1)
    · rw [if_neg h, if_neg h]

/-- Counting a COM event distributes over trace concatenation. -/
theorem countEv_append (e : ComEvent) (l m : List ComEvent) :
    countEv e (l ++ m) = countEv e l + countEv e m := by
  induction l with
  | nil => simp [countEv]
  | cons x t ih => simp [countEv, ih, Nat.add_assoc]

/-- C1 counterexample.  Start at the quiescent state (zero offsets, RA 0°,
Dec 0°) and call `set_radec_offsets(1, 0)`.  The claim predicts that
`get_radec` then returns the previous position plus the offset,
`(0 + 1 / cos 0°, 0 + 0) = (1, 0)`; the code returns `(0, 0)` — the previous
position itself — because `get_radec` subtracts the stored offset back out. -/
theorem claim1_counterexample :
    ¬ (get_radec cosdegOne (set_radec_offsets cosdegOne idleState 1 0).1
        = ((get_radec cosdegOne idleState).1
             + 1 / cosdegOne (get_radec cosdegOne idleState).2,
           (get_radec cosdegOne idleState).2 + 0)) := by
  simp only [get_radec, set_radec_offsets, idleState, cosdegOne,
    Prod.mk.injEq, not_and]
  norm_num

/-- C1 (amended): from any state with zero offsets, calling
`set_radec_offsets(dra, ddec)` and then reading `get_radec` yields the previous
position with the declination exactly unchanged and the right ascension equal
to the previous one plus the residual
`dra / cosdeg dec - dra / cosdeg (dec + ddec)` (zero when `ddec = 0`): the new
offset is subtracted back out by `get_radec`, so the reported position is the
previous uncorrected position itself, not the previous position plus the
offset. -/
theorem claim1_amended (cosdeg : ℚ → ℚ) (s : TelescopeState) (dra ddec : ℚ)
    (h1 : s.offset_ra = 0) (h2 : s.offset_dec = 0) :
    get_radec cosdeg (set_radec_offsets cosdeg s dra ddec).1
      = ((get_radec cosdeg s).1 + dra / cosdeg (get_radec cosdeg s).2
           - dra / cosdeg ((get_radec cosdeg s).2 + ddec),
         (get_radec cosdeg s).2) := by
  simp only [get_radec, set_radec_offsets, h1, h2, zero_div, sub_zero,
    Prod.mk.injEq]
  constructor
  · rw [div_mul_cancel₀]
    norm_num
  · ring

/-- C1 witness: the amended statement evaluated at the quiescent state with
offset `(1, 0)`. -/
theorem claim1_witness :
    get_radec cosdegOne (set_radec_offsets cosdegOne idleState 1 0).1
      = ((get_radec cosdegOne idleState).1
           + 1 / cosdegOne (get_radec cosdegOne idleState).2
           - 1 / cosdegOne ((get_radec cosdegOne idleState).2 + 0),
         (get_radec cosdegOne idleState).2) :=
  claim1_amended cosdegOne idleState 1 0 rfl rfl

/-- C2 counterexample.  With the abort event set at every poll and the device
still slewing for the first 5 polls, the telescope move does not abort: it
keeps waiting until the device stops slewing and then declares the success
state `POSITIONED`. -/
theorem claim2_counterexample :
    telescope_move (fun k => decide (k < 5)) (fun _ => true) 10
        MotionStatus.POSITIONED
      = some (MoveOutcome.completed MotionStatus.POSITIONED)
    ∧ telescope_move (fun k => decide (k < 5)) (fun _ => true) 10
        MotionStatus.POSITIONED
      ≠ some MoveOutcome.aborted := by
  exact ⟨rfl, by decide⟩

/-- C2 (amended): only the focuser's `_set_focus` loop checks the abort
signal — when the signal is set at a poll at which the device is still away
from the target, the loop returns `aborted` at that same poll, and the early
return leaves the motion status at `SLEWING` (no reversion to `IDLE`).  The
telescope's `_move_altaz` / `_move_radec` loops never consult the abort
event's state: their outcome is identical for any two abort traces, and on
loop exit they declare the final success state. -/
theorem claim2_amended :
    (∀ (slewing a b : Nat → Bool) (fuel : Nat) (final : MotionStatus),
        telescope_move slewing a fuel final = telescope_move slewing b fuel final)
    ∧ (∀ (position : Nat → Int) (foc : Int) (abortSet : Nat → Bool)
        (fuel k : Nat), abortSet k = true → 10 < (position k - foc).natAbs →
        focuser_wait_loop position foc abortSet (fuel + 1) k
          = some MoveOutcome.aborted)
    ∧ focuser_status_after MoveOutcome.aborted = MotionStatus.SLEWING := by
  refine ⟨?_, ?_, rfl⟩
  · intro slewing a b fuel final
    unfold telescope_move
    rw [telescope_wait_loop_abort_free slewing a b fuel 0]
  · intro position foc abortSet fuel k hset hfar
    simp only [focuser_wait_loop, if_pos hfar, hset, if_true]

/-- C2 witness: a focuser move aborted at its first poll (device 100 steps
from the target, abort event set). -/
theorem claim2_witness :
    focuser_wait_loop (fun _ => 100) 0 (fun _ => true) 1 0
      = some MoveOutcome.aborted :=
  claim2_amended.2.1 (fun _ => 100) 0 (fun _ => true) 0 0 rfl (by decide)

/-- C3: both absolute-slew bodies reset the stored offsets to `(0, 0)` before
commanding the device, so `get_radec_offsets` reads `(0, 0)` right after
either slew, whatever offsets were held before. -/
theorem claim3_offsets_reset :
    ∀ (s : TelescopeState) (alt az postRaHours postDec ra dec : ℚ)
      (final : MotionStatus),
      get_radec_offsets (move_altaz s alt az postRaHours postDec final).1
          = (0, 0)
      ∧ get_radec_offsets (move_radec s ra dec).1 = (0, 0) := by
  intro s alt az postRaHours postDec ra dec final
  exact ⟨rfl, rfl⟩

/-- C4: the right-ascension correction is always scaled by
`1 / cos(declination)`: `set_radec_offsets` commands the target
`(ra + dra / cosdeg dec, dec + ddec)` in degrees (first two conjuncts, reading
the commanded device coordinates back out of the post-slew state), and
`get_radec` subtracts `offset_ra / cosdeg declination` from the raw device
right ascension (third conjunct) — never the unscaled offset. -/
theorem claim4_cos_scaling :
    ∀ (cosdeg : ℚ → ℚ) (s : TelescopeState) (dra ddec : ℚ),
      (set_radec_offsets cosdeg s dra ddec).1.rawRaHours * 15
          = (get_radec cosdeg s).1 + dra / cosdeg (get_radec cosdeg s).2
      ∧ (set_radec_offsets cosdeg s dra ddec).1.rawDec
          = (get_radec cosdeg s).2 + ddec
      ∧ (get_radec cosdeg s).1
          = s.rawRaHours * 15 - s.offset_ra / cosdeg s.rawDec := by
  intro cosdeg s dra ddec
  refine ⟨?_, rfl, rfl⟩
  show ((get_radec cosdeg s).1 + dra / cosdeg (get_radec cosdeg s).2) / 15 * 15
      = _
  rw [div_mul_cancel₀]
  norm_num

/-- C5: `set_radec_offsets` runs under `LockWithAbort`; with the motion guard
already held by another operation the acquisition reports `busy` and the call
returns `busy` immediately, without queueing — while with the guard free the
body runs. -/
theorem claim5_busy :
    ∀ (cosdeg : ℚ → ℚ) (s : TelescopeState) (dra ddec : ℚ),
      lockWithAbort_acquire true = AcquireOutcome.busy
      ∧ set_radec_offsets_call cosdeg true s dra ddec = CallResult.busy
      ∧ set_radec_offsets_call cosdeg false s dra ddec
          = CallResult.ok (set_radec_offsets cosdeg s dra ddec) := by
  intro cosdeg s dra ddec
  exact ⟨rfl, rfl, rfl⟩

/-- C6 counterexample.  `init()` from the quiescent state never sets
`INITIALIZING`, passes through `SLEWING`, and ends in `POSITIONED`, not
`IDLE`. -/
theorem claim6_counterexample :
    MotionStatus.INITIALIZING ∉ (telescope_init idleState 1 2).2
    ∧ MotionStatus.SLEWING ∈ (telescope_init idleState 1 2).2
    ∧ (telescope_init idleState 1 2).1.motion = MotionStatus.POSITIONED
    ∧ (telescope_init idleState 1 2).1.motion ≠ MotionStatus.IDLE := by
  decide

/-- C6 (amended): for every starting state, `init()` delegates to
`_move_altaz(15, 180)` with the default final state, so the motion status
passes through `SLEWING` (not `INITIALIZING`) and ends in `POSITIONED` (not
`IDLE`). -/
theorem claim6_amended :
    ∀ (s : TelescopeState) (postRaHours postDec : ℚ),
      (telescope_init s postRaHours postDec).2
          = [MotionStatus.SLEWING, MotionStatus.POSITIONED]
      ∧ (telescope_init s postRaHours postDec).1.motion
          = MotionStatus.POSITIONED := by
  intro s postRaHours postDec
  exact ⟨rfl, rfl⟩

/-- C7 counterexample.  With a slew in flight and the abort events clear,
neither `AscomTelescope.stop_motion` nor `AscomFocuser.stop_motion` sets the
shared abort event: it stays `false`. -/
theorem claim7_counterexample :
    ¬ ((stop_motion slewingSystem).abortMoveSet = true
        ∧ (focuser_stop_motion movingFocuser).abortMotionSet = true) := by
  decide

/-- C7 (amended): `stop_motion` does not touch the motion lock (so it is
callable while a slew holds it) and issues the direct hardware abort —
`AbortSlew` plus `Tracking = False` for the telescope, `Halt` for the
focuser — but it leaves the shared abort event exactly as it was: it never
sets it. -/
theorem claim7_amended :
    ∀ (sys : TelescopeSystem) (f : FocuserSystem),
      (stop_motion sys).lockMovingHeld = sys.lockMovingHeld
      ∧ (stop_motion sys).abortMoveSet = sys.abortMoveSet
      ∧ (stop_motion sys).slewing = false
      ∧ (stop_motion sys).tele.tracking = false
      ∧ (focuser_stop_motion f).lockMotionHeld = f.lockMotionHeld
      ∧ (focuser_stop_motion f).abortMotionSet = f.abortMotionSet
      ∧ (focuser_stop_motion f).isMoving = false := by
  intro sys f
  exact ⟨rfl, rfl, rfl, rfl, rfl, rfl, rfl⟩

/-- C8 counterexample.  In `AscomTelescope.open`, a failed connect raises
`ValueError` before the trailing `CoUninitialize`, so the call's COM trace is
the lone `CoInitialize` — unbalanced. -/
theorem claim8_counterexample :
    (telescope_open false false).2 = OpenOutcome.connectFailed
    ∧ comBalanced (telescope_open false false).1 = false := by
  decide

/-- C8 (amended): the `com_device` context manager releases on every exit
path — its `finally` appends a `CoUninitialize` whatever the body's outcome,
preserving balance — but the module `open` sequence is balanced only on its
success paths; on the connect-failure path the `ValueError` skips the trailing
`CoUninitialize` and one `CoInitialize` stays unmatched. -/
theorem claim8_amended :
    (∀ (ε α : Type) (body : List ComEvent × Except ε α),
        comBalanced body.1 = true → comBalanced (com_device body).1 = true)
    ∧ (∀ alreadyConnected connectWorks : Bool,
        (telescope_open alreadyConnected connectWorks).2 = OpenOutcome.opened →
        comBalanced (telescope_open alreadyConnected connectWorks).1 = true)
    ∧ comBalanced (telescope_open false false).1 = false := by
  refine ⟨?_, by decide, by decide⟩
  intro ε α body h
  simp only [comBalanced, beq_iff_eq] at h
  simp only [comBalanced, com_device, countEv, countEv_append, beq_iff_eq]
  have hni : ¬ (ComEvent.coInit = ComEvent.coUninit) := by decide
  have hnu : ¬ (ComEvent.coUninit = ComEvent.coInit) := by decide
  simp only [if_neg hni, if_neg hnu]
  omega

/-- C8 witness: `com_device` around an empty, successful body is balanced. -/
theorem claim8_witness :
    comBalanced (com_device (([], Except.ok ()) : List ComEvent
        × Except Unit Unit)).1 = true :=
  claim8_amended.1 Unit Unit ([], Except.ok ()) rfl

/-- C9: for raw device azimuth in `[0, 360)`, `get_altaz` returns
`a + 180` when `a + 180 ≤ 360` and `a + 180 - 360` otherwise; at raw azimuth
exactly 180 it returns 360 (not 0), and the returned value always lies in
`(0, 360]`. -/
theorem claim9_azimuth (a : ℚ) (h0 : 0 ≤ a) (h1 : a < 360) :
    (get_altaz_az a = if a + 180 ≤ 360 then a + 180 else a + 180 - 360)
    ∧ get_altaz_az 180 = 360
    ∧ 0 < get_altaz_az a ∧ get_altaz_az a ≤ 360 := by
  have h360 : get_altaz_az 180 = 360 := by norm_num [get_altaz_az]
  by_cases hc : a + 180 > 360
  · have he : get_altaz_az a = a + 180 - 360 := by simp [get_altaz_az, hc]
    refine ⟨?_, h360, ?_, ?_⟩
    · rw [he, if_neg (by linarith)]
    · rw [he]; linarith
    · rw [he]; linarith
  · have he : get_altaz_az a = a + 180 := by simp [get_altaz_az, hc]
    refine ⟨?_, h360, ?_, ?_⟩
    · rw [he, if_pos (by linarith)]
    · rw [he]; linarith
    · rw [he]; linarith

/-- C9 witness: the boundary case, raw azimuth 180. -/
theorem claim9_witness : 0 < get_altaz_az 180 ∧ get_altaz_az 180 = 360 :=
  ⟨(claim9_azimuth 180 (by norm_num) (by norm_num)).2.2.1,
   (claim9_azimuth 180 (by norm_num) (by norm_num)).2.1⟩

/-- C10: `get_motion_status` reports `TRACKING` whenever the `Tracking` flag
is set, otherwise `SLEWING` when `Slewing` is set, otherwise `PARKED` when
`AtPark` is set, otherwise `IDLE`; in particular a tracked slew (both
`Tracking` and `Slewing` set) reports `TRACKING`. -/
theorem claim10_status_cascade :
    ∀ tracking slewing atPark : Bool,
      (tracking = true →
        get_motion_status tracking slewing atPark = MotionStatus.TRACKING)
      ∧ (tracking = false → slewing = true →
        get_motion_status tracking slewing atPark = MotionStatus.SLEWING)
      ∧ (tracking = false → slewing = false → atPark = true →
        get_motion_status tracking slewing atPark = MotionStatus.PARKED)
      ∧ (tracking = false → slewing = false → atPark = false →
        get_motion_status tracking slewing atPark = MotionStatus.IDLE)
      ∧ get_motion_status true true atPark = MotionStatus.TRACKING := by
  decide

/-- C10 witness: all three flags set still reports `TRACKING`. -/
theorem claim10_witness :
    get_motion_status true true true = MotionStatus.TRACKING :=
  (claim10_status_cascade true true true).1 rfl

end PyobsAscom
